import Mathlib

/-!
Verification of the restore-finalizer controller
(`pkg/controller/restore_finalizer_controller.go`) of the Velero repository.

The Go source is shallowly embedded: pure helpers become Lean functions;
the reconcile loop's interactions with the cluster, the persistence layer
and the clock become an explicit environment record, and the function
returns the externally observable outcome (issued patch, persisted write,
metric event, error flag).  The goroutine pool of
`patchDynamicPVWithVolumeInfo` is modelled as a left-to-right fold over
the volume list: the concurrent schedule only permutes the order in which
error messages are appended to the shared `Result`, which none of the
stated properties depend on.
-/

namespace VeleroFinalizer

/-! ### Association-list helpers (Go `map` values used by the controller) -/

/-- Lookup in a `map[string]string` (Go: `m[k], ok`). -/
def lookupStr (m : List (String × String)) (k : String) : Option String :=
  match m.find? (fun p => p.1 = k) with
  | some p => some p.2
  | none => none

/-- Lookup in a `map[string][]string`; Go indexing returns the zero value
(empty slice) for a missing key. -/
def lookupList (m : List (String × List String)) (k : String) : List String :=
  match m.find? (fun p => p.1 = k) with
  | some p => p.2
  | none => []

/-- Go `m[k] = append(m[k], v...)` on a `map[string][]string`: append to the
first entry carrying key `k`, or add the key at the end. -/
def nsAdd (m : List (String × List String)) (k : String) (v : List String) :
    List (String × List String) :=
  match m with
  | [] => [(k, v)]
  | p :: rest => if p.1 = k then (p.1, p.2 ++ v) :: rest else p :: nsAdd rest k v

/-- Total number of strings stored across all keys of a `map[string][]string`. -/
def nsCount (m : List (String × List String)) : Nat :=
  (m.map (fun p => p.2.length)).sum

/-! ### Result (`pkg/util/results`)

Modelled from the spec: the `results` package itself is not among the
provided source files.  Per the spec's data model, a `Result` is
"partitioned into three scopes — global ("Velero-scope"), cluster-scoped,
and a mapping from namespace name to its list of items — each a free-form
message list", merging is per-scope list concatenation, and worker
failures are "appended under the volume's restored namespace scope". -/

/-- Modelled from the spec: the `Result` aggregation structure of the
`results` package (not under the provided sources); three scopes, each a
message list. -/
structure Result where
  velero : List String
  cluster : List String
  namespaces : List (String × List String)
deriving Repr, DecidableEq

/-- The zero value of `Result` (Go: `results.Result{}`). -/
def Result.empty : Result := ⟨[], [], []⟩

/-- Modelled from the spec: `Result.Merge` concatenates the other result's
entries onto this one, scope by scope. -/
def Result.merge (r other : Result) : Result :=
  { velero := r.velero ++ other.velero
    cluster := r.cluster ++ other.cluster
    namespaces := other.namespaces.foldl (fun m p => nsAdd m p.1 p.2) r.namespaces }

/-- Modelled from the spec: `Result.Add` appends one message under the given
namespace scope. -/
def Result.add (r : Result) (ns msg : String) : Result :=
  { r with namespaces := nsAdd r.namespaces ns [msg] }

/-- Modelled from the spec: a `Result` with no entry in any scope. -/
def Result.isEmpty (r : Result) : Bool :=
  r.velero.isEmpty && r.cluster.isEmpty && r.namespaces.all (fun p => p.2.isEmpty)

/-- The count the reconciler derives from a `Result`
(`len(r.Velero) + len(r.Cluster) + Σ len(r.Namespaces[ns])`). -/
def resultCount (r : Result) : Nat :=
  r.velero.length + r.cluster.length + nsCount r.namespaces

/-! ### Restore resource (`velerov1api.Restore`) -/

/-- The restore phases this controller inspects or writes. -/
inductive RestorePhase
  | new
  | inProgress
  | waitingForPluginOperations
  | finalizing
  | finalizingPartiallyFailed
  | completed
  | partiallyFailed
  | failed
deriving Repr, DecidableEq

/-- `Restore.Status` fields touched by the controller. -/
structure RestoreStatus where
  phase : RestorePhase
  warnings : Int
  errors : Int
  completionTimestamp : Option Nat
deriving Repr, DecidableEq

/-- The restore resource (fields the controller reads or writes). -/
structure Restore where
  name : String
  backupName : String
  scheduleName : String
  namespaceMapping : List (String × String)
  status : RestoreStatus
deriving Repr, DecidableEq

/-! ### Volume info (`internal/volume`) -/

/-- Backup method tags of `internalVolume.VolumeInfo`. -/
inductive BackupMethod
  | podVolumeBackup
  | csiSnapshot
  | nativeSnapshot
  | otherMethod
deriving Repr, DecidableEq

/-- `internalVolume.PVInfo`: the recorded reclaim policy and label set of the
original persistent volume. -/
structure PVInfo where
  reclaimPolicy : String
  labels : List (String × String)
deriving Repr, DecidableEq

/-- `internalVolume.VolumeInfo` (fields the controller reads). -/
structure VolumeInfo where
  backupMethod : BackupMethod
  pvcName : String
  pvcNamespace : String
  pvName : String
  pvInfo : Option PVInfo
deriving Repr, DecidableEq

/-! ### Restored-PVC extraction (`getRestoredPVCFromRestoredResourceList`)

The Go code runs `regexp.MustCompile` with pattern "backslash-open-paren,
one or more non-close-paren characters captured, close-paren" and takes
`FindAllStringSubmatch`.  `parenGroupsAux` is a character-level scanner
with the same semantics: leftmost successive non-overlapping matches; a
match starts at an unconsumed open paren, its capture is the maximal
nonempty run of non-close-paren characters after it, and it is complete
only when a close paren follows that run. -/

/-- Scanner state: `none` means outside a candidate match; `some acc` means
an open paren was consumed and `acc` holds the (reversed) captured
characters so far. -/
def parenGroupsAux : Option (List Char) → List Char → List String
  | _, [] => []
  | none, c :: rest =>
      if c = '(' then parenGroupsAux (some []) rest
      else parenGroupsAux none rest
  | some acc, c :: rest =>
      if c = ')' then
        if acc.isEmpty then parenGroupsAux none rest
        else String.mk acc.reverse :: parenGroupsAux none rest
      else parenGroupsAux (some (c :: acc)) rest

/-- All captured groups of the regex, in order of occurrence. -/
def parenGroups (s : String) : List String :=
  parenGroupsAux none s.data

/-- The constant `restore.ItemRestoreResultCreated`. -/
def ItemRestoreResultCreated : String := "created"

/-- The fixed resource-type key for PVC entries. -/
def pvcResourceKey : String := "v1/PersistentVolumeClaim"

/-- The classification applied to one inventory string: it has at least one
parenthesized group and the last one's capture equals `created`. -/
def createdEntry (pvc : String) : Bool :=
  match (parenGroups pvc).getLast? with
  | some g => g = ItemRestoreResultCreated
  | none => false

/-- `getRestoredPVCFromRestoredResourceList`: builds the created-PVC set from
the inventory, stripping the trailing `(created)` from each kept entry.
The Go set is a `map[string]struct{}`; the model keeps the inserted keys
as a list, membership being the only operation performed on it. -/
def getRestoredPVCFromRestoredResourceList
    (restoredResourceList : List (String × List String)) : List String :=
  (lookupList restoredResourceList pvcResourceKey).foldl
    (fun pvcList pvc =>
      if createdEntry pvc then
        pvcList ++ [pvc.take (pvc.length - "(created)".length)]
      else pvcList)
    []

/-! ### Cluster objects (`k8s.io/api/core/v1`, fields the controller reads) -/

/-- `v1.PersistentVolumeClaimPhase`. -/
inductive ClaimPhase
  | claimPending
  | claimBound
  | claimLost
deriving Repr, DecidableEq

/-- `v1.PersistentVolumePhase`. -/
inductive VolumePhase
  | volumePending
  | volumeAvailable
  | volumeBound
  | volumeReleased
  | volumeFailed
deriving Repr, DecidableEq

/-- The fields of a `v1.PersistentVolumeClaim` the controller reads. -/
structure PVC where
  name : String
  nsName : String
  phase : ClaimPhase
  volumeName : String
deriving Repr, DecidableEq

/-- A PV's `Spec.ClaimRef` (an `*v1.ObjectReference`). -/
structure ClaimRef where
  name : String
  nsName : String
deriving Repr, DecidableEq

/-- The fields of a `v1.PersistentVolume` the controller reads or writes. -/
structure PV where
  name : String
  labels : List (String × String)
  reclaimPolicy : String
  claimRef : Option ClaimRef
  phase : VolumePhase
deriving Repr, DecidableEq

/-- Outcome of a client `Get`: Kubernetes not-found, another error, or the
object. -/
inductive GetR (α : Type)
  | notFound
  | err (msg : String)
  | ok (a : α)
deriving Repr, DecidableEq

/-- What one poll tick of a worker observes of the cluster: PVC lookup by
(name, namespace), PV lookup by name, and the outcome of a PV patch
submission (`none` = success). -/
structure ClusterView where
  getPVC : String → String → GetR PVC
  getPV : String → GetR PV
  patchPV : PV → PV → Option String

/-- The body of `needPatch`'s label loop for one recorded label: the key is
absent from the current labels, or present with a different value. -/
def labelDiffers (newPVLabels : List (String × String))
    (kv : String × String) : Bool :=
  match lookupStr newPVLabels kv.1 with
  | none => true
  | some v => v ≠ kv.2

/-- `needPatch`: the recorded reclaim policy differs, or some recorded label
is absent from or differs on the current PV. -/
def needPatch (newPV : PV) (pvInfo : PVInfo) : Bool :=
  if newPV.reclaimPolicy ≠ pvInfo.reclaimPolicy then true
  else pvInfo.labels.any (labelDiffers newPV.labels)

/-- The PV submitted when a patch is needed: a deep copy of the fetched PV
with the recorded labels and reclaim policy written over it. -/
def updatedPVOf (pv : PV) (pvInfo : PVInfo) : PV :=
  { pv with labels := pvInfo.labels, reclaimPolicy := pvInfo.reclaimPolicy }

/-- Outcome of one invocation of the poll condition function:
`(false, nil)` = retry, `(_, err)` = terminate with the error,
`(true, nil)` = done (with whether a patch was applied). -/
inductive PollOutcome
  | retry
  | failed (msg : String)
  | done (patched : Bool)
deriving Repr, DecidableEq

/-- A patch request, as the (original, updated) pair handed to
`kubeutil.PatchResource`. -/
def PatchCall : Type := PV × PV

/-- One iteration of the poll condition function inside the worker closure
(the body handed to `wait.PollUntilContextTimeout`): await PVC bound,
await PV bound, validate the claim reference, then compare-and-patch.
Also returns the patch calls it issued. -/
def pollIteration (cv : ClusterView) (volInfo : VolumeInfo)
    (restoredNamespace : String) (pvInfo : PVInfo) :
    PollOutcome × List PatchCall :=
  match cv.getPVC volInfo.pvcName restoredNamespace with
  | .notFound => (.retry, [])
  | .err m => (.failed m, [])
  | .ok pvc =>
    if pvc.phase ≠ .claimBound ∨ pvc.volumeName = "" then (.retry, [])
    else
      let pvName := pvc.volumeName
      match cv.getPV pvName with
      | .notFound => (.retry, [])
      | .err m => (.failed m, [])
      | .ok pv =>
        match pv.claimRef with
        | none => (.retry, [])
        | some claimRef =>
          if pv.phase ≠ .volumeBound then (.retry, [])
          else if claimRef.name ≠ pvc.name ∨ claimRef.nsName ≠ restoredNamespace then
            (.failed ("PV was bound by unexpected PVC, unexpected PVC: " ++
              claimRef.nsName ++ "/" ++ claimRef.name ++ ", expected PVC: " ++
              restoredNamespace ++ "/" ++ pvc.name), [])
          else if needPatch pv pvInfo then
            let updatedPV := updatedPVOf pv pvInfo
            match cv.patchPV pv updatedPV with
            | some m => (.failed m, [(pv, updatedPV)])
            | none => (.done true, [(pv, updatedPV)])
          else (.done false, [])

/-- Overall result of the poll loop. -/
inductive LoopResult
  | success (patched : Bool)
  | failure (msg : String)
  | timedOut
deriving Repr, DecidableEq

/-- `wait.PollUntilContextTimeout` with immediate first check: run the
condition function once per tick until it terminates or the tick budget
(10-minute deadline over a 10-second interval) is exhausted.  `view i` is
the cluster as the worker observes it at tick `i`. -/
def pollLoop (view : Nat → ClusterView) (volInfo : VolumeInfo)
    (restoredNamespace : String) (pvInfo : PVInfo) :
    Nat → Nat → LoopResult × List PatchCall
  | 0, _ => (.timedOut, [])
  | fuel + 1, i =>
    match pollIteration (view i) volInfo restoredNamespace pvInfo with
    | (.retry, calls) =>
        let next := pollLoop view volInfo restoredNamespace pvInfo fuel (i + 1)
        (next.1, calls ++ next.2)
    | (.failed m, calls) => (.failure m, calls)
    | (.done b, calls) => (.success b, calls)

/-- The error message the worker wraps a poll failure in. -/
def workerErrMsg (m pvcName pvName : String) : String :=
  "fail to patch dynamic PV, err: " ++ m ++ ", PVC: " ++ pvcName ++
    ", PV: " ++ pvName

/-- The per-volume worker goroutine: run the poll loop; on any failure
(condition error or timeout) append exactly one error under the restored
namespace scope of the shared `Result`. -/
def workerRun (view : Nat → ClusterView) (fuel : Nat) (volInfo : VolumeInfo)
    (restoredNamespace : String) (pvInfo : PVInfo) (errs : Result) :
    Result × List PatchCall :=
  match pollLoop view volInfo restoredNamespace pvInfo fuel 0 with
  | (.success _, calls) => (errs, calls)
  | (.failure m, calls) =>
      (errs.add restoredNamespace
        (workerErrMsg m volInfo.pvcName volInfo.pvName), calls)
  | (.timedOut, calls) =>
      (errs.add restoredNamespace
        (workerErrMsg "context deadline exceeded" volInfo.pvcName volInfo.pvName),
        calls)

/-! ### Finalization tasks (`finalizerContext`, `execute`,
`patchDynamicPVWithVolumeInfo`) -/

/-- `finalizerContext`: the dependencies of the finalization tasks. -/
structure finalizerContext where
  restore : Restore
  volumeInfo : List VolumeInfo
  restoredPVCList : List String

/-- The namespace a volume's PVC was restored into: its backup namespace
run through the restore's namespace mapping. -/
def restoredNamespaceOf (restore : Restore) (pvcNamespace : String) : String :=
  match lookupStr restore.namespaceMapping pvcNamespace with
  | some remapped => remapped
  | none => pvcNamespace

/-- Accumulator of the volume loop: the shared error `Result`, every patch
call issued, and the volumes for which a worker was spawned. -/
structure PoolAcc where
  errs : Result
  calls : List PatchCall
  spawned : List VolumeInfo

/-- The body of the volume loop of `patchDynamicPVWithVolumeInfo`: guard on
backup method and recorded PV info, remap the namespace, skip volumes
whose PVC is not in the created set, otherwise spawn a worker. -/
def poolStep (fctx : finalizerContext) (view : VolumeInfo → String → Nat → ClusterView)
    (fuel : Nat) (acc : PoolAcc) (volumeItem : VolumeInfo) : PoolAcc :=
  if (volumeItem.backupMethod = .podVolumeBackup ∨
      volumeItem.backupMethod = .csiSnapshot) ∧ volumeItem.pvInfo.isSome then
    let restoredNamespace := restoredNamespaceOf fctx.restore volumeItem.pvcNamespace
    let pvcKey := restoredNamespace ++ "/" ++ volumeItem.pvcName
    if fctx.restoredPVCList.contains pvcKey then
      match volumeItem.pvInfo with
      | some pvInfo =>
        let (errs, calls) :=
          workerRun (view volumeItem restoredNamespace) fuel volumeItem
            restoredNamespace pvInfo acc.errs
        ⟨errs, acc.calls ++ calls, acc.spawned ++ [volumeItem]⟩
      | none => acc
    else acc
  else acc

/-- `patchDynamicPVWithVolumeInfo`, the volume-remediation task.  The Go code
runs the workers as goroutines gated by a 3-slot semaphore and joins them
with a wait group before returning; the model runs them in list order —
the schedule only permutes per-namespace message order in `errs`. -/
def patchDynamicPVWithVolumeInfo (fctx : finalizerContext)
    (view : VolumeInfo → String → Nat → ClusterView) (fuel : Nat) : PoolAcc :=
  fctx.volumeInfo.foldl (poolStep fctx view fuel) ⟨Result.empty, [], []⟩

/-- `execute`: run the finalization tasks in order (currently only volume
remediation) and return the merged (warnings, errors) pair.  `warnings`
is initialized empty and no task writes to it. -/
def execute (fctx : finalizerContext)
    (view : VolumeInfo → String → Nat → ClusterView) (fuel : Nat) :
    Result × Result :=
  let warnings := Result.empty
  let errs := Result.empty
  let pdpErrs := (patchDynamicPVWithVolumeInfo fctx view fuel).errs
  let errs := errs.merge pdpErrs
  (warnings, errs)

/-! ### The reconciler (`Reconcile`, `updateResults`, `finishProcessing`) -/

/-- Lookup in the `map[string]results.Result` returned by
`GetRestoreResults`; a missing key yields the zero value. -/
def resultsLookup (m : List (String × Result)) (k : String) : Result :=
  match m.find? (fun p => p.1 = k) with
  | some p => p.2
  | none => Result.empty

/-- `updateResults` (the pure part): read-merge the new warnings and errors
into the previously stored results and produce the map written back. -/
def updateResults (originResults : List (String × Result))
    (newWarnings newErrs : Result) : List (String × Result) :=
  let warnings := resultsLookup originResults "warnings"
  let errs := resultsLookup originResults "errors"
  let warnings := warnings.merge newWarnings
  let errs := errs.merge newErrs
  [("warnings", warnings), ("errors", errs)]

/-- A metrics-registration event. -/
inductive MetricEvent
  | restoreSuccess (scheduleName : String)
  | restorePartialFailure (scheduleName : String)
deriving Repr, DecidableEq

/-- `finishProcessing` (the pure part): set the terminal phase (anything but
`PartiallyFailed` is recorded as `Completed`), register the metric, stamp
the completion timestamp; the resulting restore is the patch payload. -/
def finishProcessing (now : Nat) (restorePhase : RestorePhase)
    (restore : Restore) : Restore × MetricEvent :=
  if restorePhase = .partiallyFailed then
    ({ restore with status := { restore.status with
        phase := .partiallyFailed, completionTimestamp := some now } },
      .restorePartialFailure restore.scheduleName)
  else
    ({ restore with status := { restore.status with
        phase := .completed, completionTimestamp := some now } },
      .restoreSuccess restore.scheduleName)

/-- Everything one `Reconcile` call consumes from the outside world: the
fetches, the persistence layer, the clock and the cluster as each worker
observes it. -/
structure ReconcileEnv where
  getRestore : GetR Restore
  backupInfo : GetR Unit
  backupStore : Except String Unit
  volumeInfos : Except String (List VolumeInfo)
  restoredResourceList : Except String (List (String × List String))
  originResults : Except String (List (String × Result))
  putResultsErr : Option String
  patchRestoreErr : Option String
  view : VolumeInfo → String → Nat → ClusterView
  pollFuel : Nat
  now : Nat

/-- The externally observable outcome of one `Reconcile` call. -/
structure ReconcileOutcome where
  isErr : Bool
  patchedRestore : Option Restore
  resultsWrite : Option (List (String × Result))
  metric : Option MetricEvent
deriving Repr, DecidableEq

/-- A return with no observable action. -/
def ReconcileOutcome.noop (isErr : Bool) : ReconcileOutcome :=
  ⟨isErr, none, none, none⟩

/-- The tail of `Reconcile`: call `finishProcessing` and patch the restore;
a patch failure makes the reconcile call return an error. -/
def applyFinish (env : ReconcileEnv) (phase : RestorePhase) (restore : Restore)
    (write : Option (List (String × Result))) : ReconcileOutcome :=
  let (patched, metric) := finishProcessing env.now phase restore
  { isErr := env.patchRestoreErr.isSome
    patchedRestore := some patched
    resultsWrite := write
    metric := some metric }

/-- The body of `Reconcile` after the eligibility gate has passed and the
backup info was found: load the stores, derive the created-PVC set, run the
finalization tasks, update counts and phase, persist results when any
warning or error was produced, and commit the final phase. -/
def reconcileCore (env : ReconcileEnv) (restore : Restore) : ReconcileOutcome :=
  match env.backupStore with
  | .error _ => .noop true
  | .ok _ =>
  match env.volumeInfos with
  | .error _ => .noop true
  | .ok volumeInfo =>
  match env.restoredResourceList with
  | .error _ => .noop true
  | .ok restoredResourceList =>
    let restoredPVCList := getRestoredPVCFromRestoredResourceList restoredResourceList
    let fctx : finalizerContext := ⟨restore, volumeInfo, restoredPVCList⟩
    let we := execute fctx env.view env.pollFuel
    let warnings := we.1
    let errs := we.2
    let warningCnt := resultCount warnings
    let errCnt := resultCount errs
    let restore := { restore with status := { restore.status with
        warnings := restore.status.warnings + warningCnt,
        errors := restore.status.errors + errCnt } }
    let restore :=
      if errs.isEmpty then restore
      else { restore with status := { restore.status with
          phase := .finalizingPartiallyFailed } }
    let finishUp := fun (write : Option (List (String × Result))) =>
      let finalPhase :=
        if restore.status.phase = .finalizingPartiallyFailed then
          RestorePhase.partiallyFailed
        else RestorePhase.completed
      applyFinish env finalPhase restore write
    if warningCnt > 0 ∨ errCnt > 0 then
      match env.originResults with
      | .error _ => .noop true
      | .ok originResults =>
        let m := updateResults originResults warnings errs
        match env.putResultsErr with
        | some _ => .noop true
        | none => finishUp (some m)
    else finishUp none

/-- `Reconcile`: fetch the restore, gate on the finalizing phases, handle a
missing backup, and otherwise run `reconcileCore`. -/
def Reconcile (env : ReconcileEnv) : ReconcileOutcome :=
  match env.getRestore with
  | .notFound => .noop false
  | .err _ => .noop true
  | .ok original =>
    let restore := original
    match restore.status.phase with
    | .finalizing | .finalizingPartiallyFailed =>
      (match env.backupInfo with
       | .notFound => applyFinish env .partiallyFailed restore none
       | .err _ => .noop true
       | .ok _ => reconcileCore env restore)
    | _ => .noop false

/-! ### Basic lemmas about `Result` bookkeeping -/

theorem nsCount_nsAdd (m : List (String × List String)) (k : String)
    (v : List String) : nsCount (nsAdd m k v) = nsCount m + v.length := by
  induction m with
  | nil => simp [nsAdd, nsCount]
  | cons p rest ih =>
    by_cases h : p.1 = k
    · simp [nsAdd, h, nsCount, Nat.add_assoc, Nat.add_comm, Nat.add_left_comm]
    · simp [nsAdd, h, nsCount] at ih ⊢
      omega

theorem nsCount_mergeFold (l m : List (String × List String)) :
    nsCount (l.foldl (fun m p => nsAdd m p.1 p.2) m) = nsCount m + nsCount l := by
  induction l generalizing m with
  | nil => simp [nsCount]
  | cons p rest ih =>
    simp only [List.foldl_cons, ih, nsCount_nsAdd]
    simp [nsCount]
    omega

theorem resultCount_merge (r other : Result) :
    resultCount (r.merge other) = resultCount r + resultCount other := by
  simp [resultCount, Result.merge, nsCount_mergeFold]
  omega

theorem resultCount_add (r : Result) (ns msg : String) :
    resultCount (r.add ns msg) = resultCount r + 1 := by
  simp [resultCount, Result.add, nsCount_nsAdd]
  omega

theorem isEmpty_iff_count (r : Result) :
    r.isEmpty = true ↔ resultCount r = 0 := by
  simp only [Result.isEmpty, resultCount, nsCount, Bool.and_eq_true,
    List.all_eq_true, List.isEmpty_iff, Nat.add_eq_zero,
    List.length_eq_zero, List.sum_eq_zero_iff, List.mem_map]
  constructor
  · rintro ⟨⟨hv, hc⟩, hn⟩
    refine ⟨⟨hv, hc⟩, ?_⟩
    rintro x ⟨p, hp, rfl⟩
    simpa [List.length_eq_zero] using hn p hp
  · rintro ⟨⟨hv, hc⟩, hn⟩
    refine ⟨⟨hv, hc⟩, ?_⟩
    intro p hp
    simpa [List.length_eq_zero] using hn p.2.length ⟨p, hp, rfl⟩

theorem empty_merge_count (r : Result) :
    resultCount (Result.empty.merge r) = resultCount r := by
  rw [resultCount_merge]
  simp [Result.empty, resultCount, nsCount]

/-! ### C2: classification of restored-PVC inventory entries -/

theorem getRestored_foldl (l acc : List String) :
    l.foldl (fun pvcList pvc =>
        if createdEntry pvc then
          pvcList ++ [pvc.take (pvc.length - "(created)".length)]
        else pvcList) acc
      = acc ++ (l.filter createdEntry).map
          (fun pvc => pvc.take (pvc.length - "(created)".length)) := by
  induction l generalizing acc with
  | nil => simp
  | cons a l ih =>
    by_cases h : createdEntry a
    · simp [List.foldl_cons, h, ih, List.filter_cons]
    · simp [List.foldl_cons, h, ih, List.filter_cons]

/-- C2: an inventory string under the key `v1/PersistentVolumeClaim` is
classified "created" — and contributes to the created-PVC set — exactly
when the capture of its last parenthesized group is the literal `created`
(case-sensitive); in particular `"ns1/pvc-a(created)"` is created,
`"ns1/pvc-b(skipped)"` and `"ns1/pvc-a(Created)"` are not, and
`"ns1/pvc(weird)(created)"` is created because only the last group counts. -/
theorem C2_created_classification :
    (∀ restoredResourceList : List (String × List String),
      getRestoredPVCFromRestoredResourceList restoredResourceList =
        ((lookupList restoredResourceList pvcResourceKey).filter createdEntry).map
          (fun pvc => pvc.take (pvc.length - "(created)".length)))
    ∧ (∀ s : String,
        createdEntry s = true ↔ (parenGroups s).getLast? = some ItemRestoreResultCreated)
    ∧ createdEntry "ns1/pvc-a(created)" = true
    ∧ createdEntry "ns1/pvc-b(skipped)" = false
    ∧ createdEntry "ns1/pvc(weird)(created)" = true
    ∧ createdEntry "ns1/pvc-a(Created)" = false := by
  refine ⟨?_, ?_, by decide, by decide, by decide, by decide⟩
  · intro rrl
    unfold getRestoredPVCFromRestoredResourceList
    exact getRestored_foldl _ []
  · intro s
    unfold createdEntry
    cases h : (parenGroups s).getLast? with
    | none => simp
    | some g => simp [h, ItemRestoreResultCreated]

/-! ### C3: selection predicate of the remediation worker pool -/

/-- The selection predicate, as the spec states it: eligible backup method,
recorded original-PV metadata present, and the remapped namespace/PVC-name
pair confirmed created. -/
def startsWorker (fctx : finalizerContext) (v : VolumeInfo) : Prop :=
  (v.backupMethod = .podVolumeBackup ∨ v.backupMethod = .csiSnapshot) ∧
  v.pvInfo ≠ none ∧
  (restoredNamespaceOf fctx.restore v.pvcNamespace ++ "/" ++ v.pvcName)
    ∈ fctx.restoredPVCList

instance (fctx : finalizerContext) (v : VolumeInfo) :
    Decidable (startsWorker fctx v) := by
  unfold startsWorker
  infer_instance

/-- C3: the volume loop spawns a remediation worker for a volume exactly when
`startsWorker` holds of it; a volume failing the predicate leaves the loop
accumulator — the shared error `Result` included — completely unchanged. -/
theorem C3_worker_selection :
    ∀ (fctx : finalizerContext) (view : VolumeInfo → String → Nat → ClusterView)
      (fuel : Nat) (acc : PoolAcc) (v : VolumeInfo),
      (startsWorker fctx v →
        (poolStep fctx view fuel acc v).spawned = acc.spawned ++ [v])
      ∧ (¬ startsWorker fctx v → poolStep fctx view fuel acc v = acc) := by
  intro fctx view fuel acc v
  constructor
  · rintro ⟨hm, hp, hin⟩
    rcases ho : v.pvInfo with _ | pvInfo
    · exact absurd ho hp
    · simp [poolStep, hm, ho, List.elem_iff, hin]
  · intro h
    by_cases hm : v.backupMethod = .podVolumeBackup ∨ v.backupMethod = .csiSnapshot
    · by_cases hp : v.pvInfo.isSome
      · have hin : ¬ (restoredNamespaceOf fctx.restore v.pvcNamespace ++ "/" ++
            v.pvcName) ∈ fctx.restoredPVCList := by
          intro hmem
          exact h ⟨hm, by simpa [Option.isSome_iff_ne_none] using hp, hmem⟩
        simp [poolStep, hm, hp, List.elem_iff, hin]
      · simp [poolStep, hm, hp]
    · simp [poolStep, hm]

/-- C3 witness fixtures: a created-PVC set holding the one remapped key. -/
def fctxW : finalizerContext :=
  ⟨⟨"r1", "b1", "sched1", [], ⟨.finalizing, 2, 3, none⟩⟩,
   [⟨.csiSnapshot, "pvc-1", "ns-1", "pv-1", some ⟨"Retain", [("app", "db")]⟩⟩],
   ["ns-1/pvc-1"]⟩

/-- C3 witness fixtures: an eligible volume. -/
def volW : VolumeInfo :=
  ⟨.csiSnapshot, "pvc-1", "ns-1", "pv-1", some ⟨"Retain", [("app", "db")]⟩⟩

/-- C3 witness fixtures: the same volume with no recorded PV info. -/
def volBadW : VolumeInfo := ⟨.csiSnapshot, "pvc-1", "ns-1", "pv-1", none⟩

/-- C3 witness fixtures: an empty pool accumulator. -/
def accW : PoolAcc := ⟨Result.empty, [], []⟩

/-- C3 witness fixtures: a cluster view family finding nothing. -/
def viewW : VolumeInfo → String → Nat → ClusterView :=
  fun _ _ _ => ⟨fun _ _ => .notFound, fun _ => .notFound, fun _ _ => none⟩

theorem C3_worker_selection_witness :
    (poolStep fctxW viewW 61 accW volW).spawned = accW.spawned ++ [volW]
    ∧ poolStep fctxW viewW 61 accW volBadW = accW :=
  ⟨(C3_worker_selection fctxW viewW 61 accW volW).1 (by decide),
   (C3_worker_selection fctxW viewW 61 accW volBadW).2 (by decide)⟩

/-! ### C4: the patch decision -/

theorem labelDiffers_iff (labels : List (String × String))
    (kv : String × String) :
    labelDiffers labels kv = true ↔ lookupStr labels kv.1 ≠ some kv.2 := by
  unfold labelDiffers
  cases h : lookupStr labels kv.1 <;> simp [h]

/-- C4: once a worker's poll tick has fetched a bound PVC and its bound PV
and the claim reference validates, a patch is issued exactly when the
reclaim policy differs or some recorded label is missing or different
(extra current labels never trigger one); an issued patch submits the
just-fetched PV with the recorded reclaim policy and full label set
written over it, and the tick — and with it the poll loop — terminates
successfully when no patch is needed or the patch succeeds. -/
theorem C4_patch_decision
    (cv : ClusterView) (volInfo : VolumeInfo) (restoredNamespace : String)
    (pvInfo : PVInfo) (pvc : PVC) (pv : PV) (cr : ClaimRef)
    (hpvc : cv.getPVC volInfo.pvcName restoredNamespace = .ok pvc)
    (hcb : pvc.phase = .claimBound) (hvn : pvc.volumeName ≠ "")
    (hpv : cv.getPV pvc.volumeName = .ok pv)
    (hcr : pv.claimRef = some cr) (hvb : pv.phase = .volumeBound)
    (hname : cr.name = pvc.name) (hns : cr.nsName = restoredNamespace) :
    (needPatch pv pvInfo = true ↔
      (pv.reclaimPolicy ≠ pvInfo.reclaimPolicy ∨
        ∃ kv ∈ pvInfo.labels, lookupStr pv.labels kv.1 ≠ some kv.2))
    ∧ (pollIteration cv volInfo restoredNamespace pvInfo).2
        = (if needPatch pv pvInfo then [(pv, updatedPVOf pv pvInfo)] else [])
    ∧ (needPatch pv pvInfo = false →
        pollIteration cv volInfo restoredNamespace pvInfo = (.done false, []))
    ∧ (needPatch pv pvInfo = true →
        cv.patchPV pv (updatedPVOf pv pvInfo) = none →
        pollIteration cv volInfo restoredNamespace pvInfo
          = (.done true, [(pv, updatedPVOf pv pvInfo)]))
    ∧ (∀ (view : Nat → ClusterView) (fuel : Nat) (b : Bool)
          (calls : List PatchCall),
        view 0 = cv →
        pollIteration cv volInfo restoredNamespace pvInfo = (.done b, calls) →
        pollLoop view volInfo restoredNamespace pvInfo (fuel + 1) 0
          = (.success b, calls)) := by
  have hA : needPatch pv pvInfo = false →
      pollIteration cv volInfo restoredNamespace pvInfo = (.done false, []) := by
    intro hnp
    simp [pollIteration, hpvc, hcb, hvn, hpv, hcr, hvb, hname, hns, hnp]
  have hB : needPatch pv pvInfo = true →
      cv.patchPV pv (updatedPVOf pv pvInfo) = none →
      pollIteration cv volInfo restoredNamespace pvInfo
        = (.done true, [(pv, updatedPVOf pv pvInfo)]) := by
    intro hnp hpk
    simp [pollIteration, hpvc, hcb, hvn, hpv, hcr, hvb, hname, hns, hnp, hpk]
  have hC : ∀ m, needPatch pv pvInfo = true →
      cv.patchPV pv (updatedPVOf pv pvInfo) = some m →
      pollIteration cv volInfo restoredNamespace pvInfo
        = (.failed m, [(pv, updatedPVOf pv pvInfo)]) := by
    intro m hnp hpk
    simp [pollIteration, hpvc, hcb, hvn, hpv, hcr, hvb, hname, hns, hnp, hpk]
  refine ⟨?_, ?_, ?_, ?_, ?_⟩
  · unfold needPatch
    by_cases hp : pv.reclaimPolicy = pvInfo.reclaimPolicy
    · rw [if_neg (by simp [hp]), List.any_eq_true]
      simp only [labelDiffers_iff]
      constructor
      · rintro ⟨kv, hkv, hf⟩
        exact Or.inr ⟨kv, hkv, hf⟩
      · rintro (h | ⟨kv, hkv, hf⟩)
        · exact (h hp).elim
        · exact ⟨kv, hkv, hf⟩
    · rw [if_pos (by simp [hp])]
      exact iff_of_true rfl (Or.inl hp)
  · cases hnp : needPatch pv pvInfo with
    | false => rw [hA hnp]; simp [hnp]
    | true =>
      cases hpk : cv.patchPV pv (updatedPVOf pv pvInfo) with
      | none => rw [hB hnp hpk]; simp [hnp]
      | some m => rw [hC m hnp hpk]; simp [hnp]
  · intro hnp
    exact hA hnp
  · intro hnp hpok
    exact hB hnp hpok
  · intro view fuel b calls hview hdone
    simp [pollLoop, hview, hdone]

/-- C4 witness: a concrete bound PVC/PV pair whose reclaim policy differs
from the recorded PVInfo, with a succeeding patch submission. -/
def pvcW : PVC := ⟨"pvc-1", "ns-1", .claimBound, "pv-1"⟩

/-- C4 witness claim reference, matching the PVC. -/
def crW : ClaimRef := ⟨"pvc-1", "ns-1"⟩

/-- C4 witness PV: bound, reclaim policy `Delete`, no labels. -/
def pvW : PV := ⟨"pv-1", [], "Delete", some crW, .volumeBound⟩

/-- C4 witness recorded PV info: reclaim policy `Retain`, one label. -/
def pvInfoW : PVInfo := ⟨"Retain", [("app", "db")]⟩

/-- C4 witness volume info. -/
def volInfoW : VolumeInfo := ⟨.csiSnapshot, "pvc-1", "ns-1", "pv-1", some pvInfoW⟩

/-- C4 witness cluster view: returns the objects above; patches succeed. -/
def cvW : ClusterView :=
  ⟨fun name ns => if name = "pvc-1" ∧ ns = "ns-1" then .ok pvcW else .notFound,
   fun name => if name = "pv-1" then .ok pvW else .notFound,
   fun _ _ => none⟩

theorem C4_patch_decision_witness :
    (needPatch pvW pvInfoW = true ↔
      (pvW.reclaimPolicy ≠ pvInfoW.reclaimPolicy ∨
        ∃ kv ∈ pvInfoW.labels, lookupStr pvW.labels kv.1 ≠ some kv.2))
    ∧ (pollIteration cvW volInfoW "ns-1" pvInfoW).2
        = (if needPatch pvW pvInfoW then [(pvW, updatedPVOf pvW pvInfoW)] else [])
    ∧ (needPatch pvW pvInfoW = false →
        pollIteration cvW volInfoW "ns-1" pvInfoW = (.done false, []))
    ∧ (needPatch pvW pvInfoW = true →
        cvW.patchPV pvW (updatedPVOf pvW pvInfoW) = none →
        pollIteration cvW volInfoW "ns-1" pvInfoW
          = (.done true, [(pvW, updatedPVOf pvW pvInfoW)]))
    ∧ (∀ (view : Nat → ClusterView) (fuel : Nat) (b : Bool)
          (calls : List PatchCall),
        view 0 = cvW →
        pollIteration cvW volInfoW "ns-1" pvInfoW = (.done b, calls) →
        pollLoop view volInfoW "ns-1" pvInfoW (fuel + 1) 0
          = (.success b, calls)) :=
  C4_patch_decision cvW volInfoW "ns-1" pvInfoW pvcW pvW crW
    (by simp [cvW, volInfoW]) rfl (by decide) (by simp [cvW, pvcW]) rfl rfl
    rfl rfl

/-! ### C5: claim-reference mismatch is a permanent failure -/

/-- C5: when the bound PV's claim reference names a different PVC, the poll
condition fails on that very tick with no patch call, the poll loop stops
immediately whatever fuel remains (no retry), and the worker records
exactly one error entry under the volume's restored-namespace scope. -/
theorem C5_claimref_mismatch
    (cv : ClusterView) (volInfo : VolumeInfo) (restoredNamespace : String)
    (pvInfo : PVInfo) (pvc : PVC) (pv : PV) (cr : ClaimRef)
    (hpvc : cv.getPVC volInfo.pvcName restoredNamespace = .ok pvc)
    (hcb : pvc.phase = .claimBound) (hvn : pvc.volumeName ≠ "")
    (hpv : cv.getPV pvc.volumeName = .ok pv)
    (hcr : pv.claimRef = some cr) (hvb : pv.phase = .volumeBound)
    (hmis : cr.name ≠ pvc.name ∨ cr.nsName ≠ restoredNamespace) :
    ∃ m : String,
      pollIteration cv volInfo restoredNamespace pvInfo = (.failed m, [])
      ∧ (∀ (view : Nat → ClusterView) (fuel : Nat), view 0 = cv →
          pollLoop view volInfo restoredNamespace pvInfo (fuel + 1) 0
            = (.failure m, []))
      ∧ (∀ (view : Nat → ClusterView) (fuel : Nat) (errs : Result),
          view 0 = cv →
          workerRun view (fuel + 1) volInfo restoredNamespace pvInfo errs
            = (errs.add restoredNamespace
                (workerErrMsg m volInfo.pvcName volInfo.pvName), []))
      ∧ (∀ errs : Result,
          resultCount (errs.add restoredNamespace
            (workerErrMsg m volInfo.pvcName volInfo.pvName))
            = resultCount errs + 1) := by
  have hiter : pollIteration cv volInfo restoredNamespace pvInfo =
      (.failed ("PV was bound by unexpected PVC, unexpected PVC: " ++
        cr.nsName ++ "/" ++ cr.name ++ ", expected PVC: " ++
        restoredNamespace ++ "/" ++ pvc.name), []) := by
    have hmis' : ¬ (cr.name = pvc.name ∧ cr.nsName = restoredNamespace) := by
      rintro ⟨h1, h2⟩
      rcases hmis with h | h
      · exact h h1
      · exact h h2
    simp [pollIteration, hpvc, hcb, hvn, hpv, hcr, hvb]
    intro h1 h2
    exact absurd ⟨h1, h2⟩ hmis'
  refine ⟨_, hiter, ?_, ?_, ?_⟩
  · intro view fuel hview
    simp [pollLoop, hview, hiter]
  · intro view fuel errs hview
    simp [workerRun, pollLoop, hview, hiter]
  · intro errs
    exact resultCount_add errs _ _

/-- C5 witness claim reference: names a different PVC. -/
def crMisW : ClaimRef := ⟨"pvc-other", "ns-1"⟩

/-- C5 witness PV: bound to the unexpected claim. -/
def pvMisW : PV := ⟨"pv-1", [], "Retain", some crMisW, .volumeBound⟩

/-- C5 witness cluster view. -/
def cvMisW : ClusterView :=
  ⟨fun name ns => if name = "pvc-1" ∧ ns = "ns-1" then .ok pvcW else .notFound,
   fun name => if name = "pv-1" then .ok pvMisW else .notFound,
   fun _ _ => none⟩

theorem C5_claimref_mismatch_witness :
    ∃ m : String,
      pollIteration cvMisW volInfoW "ns-1" pvInfoW = (.failed m, [])
      ∧ (∀ (view : Nat → ClusterView) (fuel : Nat), view 0 = cvMisW →
          pollLoop view volInfoW "ns-1" pvInfoW (fuel + 1) 0
            = (.failure m, []))
      ∧ (∀ (view : Nat → ClusterView) (fuel : Nat) (errs : Result),
          view 0 = cvMisW →
          workerRun view (fuel + 1) volInfoW "ns-1" pvInfoW errs
            = (errs.add "ns-1"
                (workerErrMsg m volInfoW.pvcName volInfoW.pvName), []))
      ∧ (∀ errs : Result,
          resultCount (errs.add "ns-1"
            (workerErrMsg m volInfoW.pvcName volInfoW.pvName))
            = resultCount errs + 1) :=
  C5_claimref_mismatch cvMisW volInfoW "ns-1" pvInfoW pvcW pvMisW crMisW
    (by simp [cvMisW, volInfoW]) rfl (by decide) (by simp [cvMisW, pvcW]) rfl
    rfl (by decide)

/-! ### C6 and C8: the reconcile gate and the missing-backup path -/

/-- C6: with the restore in a finalizing phase, a not-found backup drives the
restore straight to `PartiallyFailed` (completion stamped, partial-failure
metric fired, no result write) and the reconcile call succeeds, while any
other backup-fetch error is returned as a reconcile error. -/
theorem C6_missing_backup
    (env : ReconcileEnv) (original : Restore)
    (hget : env.getRestore = .ok original)
    (hphase : original.status.phase = .finalizing ∨
      original.status.phase = .finalizingPartiallyFailed) :
    (env.backupInfo = .notFound → env.patchRestoreErr = none →
      Reconcile env =
        { isErr := false
          patchedRestore := some { original with status := { original.status with
              phase := .partiallyFailed, completionTimestamp := some env.now } }
          resultsWrite := none
          metric := some (.restorePartialFailure original.scheduleName) })
    ∧ (∀ m, env.backupInfo = .err m → Reconcile env = .noop true) := by
  constructor
  · intro hnf hpatch
    rcases hphase with h | h <;>
      simp [Reconcile, hget, h, hnf, applyFinish, finishProcessing, hpatch]
  · intro m hem
    rcases hphase with h | h <;> simp [Reconcile, hget, h, hem]

/-- Shared fixture: the trivial cluster view family (no object is found). -/
def viewNone : VolumeInfo → String → Nat → ClusterView :=
  fun _ _ _ => ⟨fun _ _ => .notFound, fun _ => .notFound, fun _ _ => none⟩

/-- Shared fixture: a restore awaiting finalization in phase `Finalizing`. -/
def restoreFin : Restore := ⟨"r1", "b1", "sched1", [], ⟨.finalizing, 2, 3, none⟩⟩

/-- Shared fixture: a restore in phase `FinalizingPartiallyFailed`. -/
def restoreFPF : Restore :=
  ⟨"r2", "b1", "sched1", [], ⟨.finalizingPartiallyFailed, 0, 1, none⟩⟩

/-- Shared fixture: a restore still in progress. -/
def restoreIP : Restore := ⟨"r3", "b1", "sched1", [], ⟨.inProgress, 0, 0, none⟩⟩

/-- Shared fixture: an environment where every external call succeeds and
nothing is found in the cluster. -/
def envBase : ReconcileEnv :=
  { getRestore := .ok restoreFin
    backupInfo := .ok ()
    backupStore := .ok ()
    volumeInfos := .ok []
    restoredResourceList := .ok []
    originResults := .ok []
    putResultsErr := none
    patchRestoreErr := none
    view := viewNone
    pollFuel := 61
    now := 1000 }

theorem C6_missing_backup_witness :
    (ReconcileEnv.backupInfo { envBase with backupInfo := .notFound }
        = .notFound →
      ReconcileEnv.patchRestoreErr { envBase with backupInfo := .notFound }
        = none →
      Reconcile { envBase with backupInfo := .notFound } =
        { isErr := false
          patchedRestore := some
            { restoreFin with status :=
                { restoreFin.status with
                  phase := .partiallyFailed
                  completionTimestamp := some
                    (ReconcileEnv.now { envBase with backupInfo := .notFound }) } }
          resultsWrite := none
          metric := some (.restorePartialFailure restoreFin.scheduleName) })
    ∧ (∀ m, ReconcileEnv.backupInfo { envBase with backupInfo := .notFound }
        = .err m →
      Reconcile { envBase with backupInfo := .notFound } = .noop true) :=
  C6_missing_backup { envBase with backupInfo := .notFound } restoreFin rfl
    (Or.inl rfl)

/-- C8: a reconcile call that finds no restore, or finds one whose phase is
not `Finalizing`/`FinalizingPartiallyFailed`, returns success and performs
no patch, no result write and no metric registration. -/
theorem C8_noop_outside_finalizing (env : ReconcileEnv) :
    (∀ original, env.getRestore = .ok original →
      original.status.phase ≠ .finalizing →
      original.status.phase ≠ .finalizingPartiallyFailed →
      Reconcile env = ⟨false, none, none, none⟩)
    ∧ (env.getRestore = .notFound → Reconcile env = ⟨false, none, none, none⟩) := by
  constructor
  · intro original hget h1 h2
    cases hph : original.status.phase
    all_goals first
      | exact absurd hph h1
      | exact absurd hph h2
      | simp [Reconcile, hget, hph, ReconcileOutcome.noop]
  · intro hnf
    simp [Reconcile, hnf, ReconcileOutcome.noop]

theorem C8_noop_witness :
    Reconcile { envBase with getRestore := .ok restoreIP }
        = ⟨false, none, none, none⟩
    ∧ Reconcile { envBase with getRestore := .notFound }
        = ⟨false, none, none, none⟩ :=
  ⟨(C8_noop_outside_finalizing { envBase with getRestore := .ok restoreIP }).1
      restoreIP rfl (by decide) (by decide),
   (C8_noop_outside_finalizing { envBase with getRestore := .notFound }).2 rfl⟩

/-! ### The successful finalization path, reduced once for C1, C7 and C10 -/

/-- The restore after the count update and the conditional phase promotion
of the reconcile body (lines 164–177 of the source). -/
def reconciledRestore (original : Restore) (w e : Result) : Restore :=
  { original with status := { original.status with
      warnings := original.status.warnings + resultCount w
      errors := original.status.errors + resultCount e
      phase := if e.isEmpty then original.status.phase
        else .finalizingPartiallyFailed } }

theorem Reconcile_finalize_eq
    (env : ReconcileEnv) (original : Restore) (vs : List VolumeInfo)
    (rrl : List (String × List String)) (origRes : List (String × Result))
    (hget : env.getRestore = .ok original)
    (hphase : original.status.phase = .finalizing ∨
      original.status.phase = .finalizingPartiallyFailed)
    (hinfo : env.backupInfo = .ok ())
    (hstore : env.backupStore = .ok ())
    (hvol : env.volumeInfos = .ok vs)
    (hrrl : env.restoredResourceList = .ok rrl)
    (horig : env.originResults = .ok origRes)
    (hput : env.putResultsErr = none) :
    Reconcile env =
      (let we := execute ⟨original, vs, getRestoredPVCFromRestoredResourceList rrl⟩
          env.view env.pollFuel
       let restore2 := reconciledRestore original we.1 we.2
       applyFinish env
         (if restore2.status.phase = .finalizingPartiallyFailed
          then RestorePhase.partiallyFailed else .completed)
         restore2
         (if resultCount we.1 > 0 ∨ resultCount we.2 > 0
          then some (updateResults origRes we.1 we.2) else none)) := by
  have hcore : Reconcile env = reconcileCore env original := by
    rcases hphase with h | h <;> simp [Reconcile, hget, h, hinfo]
  rw [hcore]
  unfold reconcileCore
  simp only [hstore, hvol, hrrl, horig, hput]
  by_cases he : (execute ⟨original, vs, getRestoredPVCFromRestoredResourceList rrl⟩
      env.view env.pollFuel).2.isEmpty <;>
    by_cases hw : resultCount (execute ⟨original, vs,
        getRestoredPVCFromRestoredResourceList rrl⟩ env.view env.pollFuel).1 > 0 ∨
      resultCount (execute ⟨original, vs,
        getRestoredPVCFromRestoredResourceList rrl⟩ env.view env.pollFuel).2 > 0 <;>
    simp [he, hw, reconciledRestore]

theorem applyFinish_spec (env : ReconcileEnv) (phase : RestorePhase)
    (restore : Restore) (write : Option (List (String × Result))) :
    applyFinish env phase restore write =
      { isErr := env.patchRestoreErr.isSome
        patchedRestore := some (finishProcessing env.now phase restore).1
        resultsWrite := write
        metric := some (finishProcessing env.now phase restore).2 } := by
  unfold applyFinish
  rcases hfp : finishProcessing env.now phase restore with ⟨p, m⟩
  simp [hfp]

theorem finishProcessing_fst (now : Nat) (phase : RestorePhase)
    (restore : Restore) :
    (finishProcessing now phase restore).1 =
      { restore with status := { restore.status with
          phase := if phase = .partiallyFailed then .partiallyFailed
            else .completed
          completionTimestamp := some now } } := by
  unfold finishProcessing
  by_cases h : phase = .partiallyFailed <;> simp [h]

/-! ### C1: the finalization outcome -/

/-- C1: on a reconcile pass that reaches finalization with every load
succeeding, the patched restore's cumulative warning and error counts grow
by the total number of entries across the three scopes of the executor's
warnings and errors `Result`s, the completion timestamp is stamped, and
the patched phase is `PartiallyFailed` exactly when the restore entered in
`FinalizingPartiallyFailed` or the finalization tasks produced at least
one error entry, `Completed` otherwise. -/
theorem C1_finalization_outcome
    (env : ReconcileEnv) (original : Restore) (vs : List VolumeInfo)
    (rrl : List (String × List String)) (origRes : List (String × Result))
    (hget : env.getRestore = .ok original)
    (hphase : original.status.phase = .finalizing ∨
      original.status.phase = .finalizingPartiallyFailed)
    (hinfo : env.backupInfo = .ok ())
    (hstore : env.backupStore = .ok ())
    (hvol : env.volumeInfos = .ok vs)
    (hrrl : env.restoredResourceList = .ok rrl)
    (horig : env.originResults = .ok origRes)
    (hput : env.putResultsErr = none) :
    ∃ r', (Reconcile env).patchedRestore = some r'
      ∧ r'.status.warnings = original.status.warnings +
          resultCount (execute ⟨original, vs,
            getRestoredPVCFromRestoredResourceList rrl⟩ env.view env.pollFuel).1
      ∧ r'.status.errors = original.status.errors +
          resultCount (execute ⟨original, vs,
            getRestoredPVCFromRestoredResourceList rrl⟩ env.view env.pollFuel).2
      ∧ r'.status.completionTimestamp = some env.now
      ∧ r'.status.phase =
          (if original.status.phase = .finalizingPartiallyFailed ∨
              resultCount (execute ⟨original, vs,
                getRestoredPVCFromRestoredResourceList rrl⟩
                  env.view env.pollFuel).2 ≠ 0
           then RestorePhase.partiallyFailed else .completed) := by
  rw [Reconcile_finalize_eq env original vs rrl origRes hget hphase hinfo hstore
    hvol hrrl horig hput]
  simp only [applyFinish_spec, finishProcessing_fst]
  refine ⟨_, rfl, ?_, ?_, ?_, ?_⟩
  · simp [reconciledRestore]
  · simp [reconciledRestore]
  · simp
  · by_cases he : (execute ⟨original, vs, getRestoredPVCFromRestoredResourceList
        rrl⟩ env.view env.pollFuel).2.isEmpty
    · have h0 : resultCount (execute ⟨original, vs,
          getRestoredPVCFromRestoredResourceList rrl⟩
            env.view env.pollFuel).2 = 0 := (isEmpty_iff_count _).mp he
      rcases hphase with h | h <;> simp [reconciledRestore, he, h0, h]
    · have hne : resultCount (execute ⟨original, vs,
          getRestoredPVCFromRestoredResourceList rrl⟩
            env.view env.pollFuel).2 ≠ 0 := by
        intro h0
        simp [(isEmpty_iff_count _).mpr h0] at he
      simp [reconciledRestore, he, hne]

theorem C1_finalization_outcome_witness :
    ∃ r', (Reconcile envBase).patchedRestore = some r'
      ∧ r'.status.warnings = restoreFin.status.warnings +
          resultCount (execute ⟨restoreFin, [],
            getRestoredPVCFromRestoredResourceList []⟩
              envBase.view envBase.pollFuel).1
      ∧ r'.status.errors = restoreFin.status.errors +
          resultCount (execute ⟨restoreFin, [],
            getRestoredPVCFromRestoredResourceList []⟩
              envBase.view envBase.pollFuel).2
      ∧ r'.status.completionTimestamp = some envBase.now
      ∧ r'.status.phase =
          (if restoreFin.status.phase = .finalizingPartiallyFailed ∨
              resultCount (execute ⟨restoreFin, [],
                getRestoredPVCFromRestoredResourceList []⟩
                  envBase.view envBase.pollFuel).2 ≠ 0
           then RestorePhase.partiallyFailed else .completed) :=
  C1_finalization_outcome envBase restoreFin [] [] [] rfl (Or.inl rfl) rfl rfl
    rfl rfl rfl rfl

/-! ### C7: the result write -/

theorem poolStep_skip (fctx : finalizerContext)
    (view : VolumeInfo → String → Nat → ClusterView) (fuel : Nat)
    (acc : PoolAcc) (v : VolumeInfo) (h : ¬ startsWorker fctx v) :
    poolStep fctx view fuel acc v = acc := by
  by_cases hm : v.backupMethod = .podVolumeBackup ∨ v.backupMethod = .csiSnapshot
  · by_cases hp : v.pvInfo.isSome
    · have hin : ¬ (restoredNamespaceOf fctx.restore v.pvcNamespace ++ "/" ++
          v.pvcName) ∈ fctx.restoredPVCList := by
        intro hmem
        exact h ⟨hm, by simpa [Option.isSome_iff_ne_none] using hp, hmem⟩
      simp [poolStep, hm, hp, List.elem_iff, hin]
    · simp [poolStep, hm, hp]
  · simp [poolStep, hm]

theorem pool_all_skip (fctx : finalizerContext)
    (view : VolumeInfo → String → Nat → ClusterView) (fuel : Nat)
    (h : ∀ v ∈ fctx.volumeInfo, ¬ startsWorker fctx v) :
    patchDynamicPVWithVolumeInfo fctx view fuel = ⟨Result.empty, [], []⟩ := by
  unfold patchDynamicPVWithVolumeInfo
  have : ∀ (l : List VolumeInfo) (acc : PoolAcc),
      (∀ v ∈ l, ¬ startsWorker fctx v) →
      l.foldl (poolStep fctx view fuel) acc = acc := by
    intro l
    induction l with
    | nil => intro acc _; rfl
    | cons a t ih =>
      intro acc hl
      rw [List.foldl_cons, poolStep_skip fctx view fuel acc a (hl a (by simp))]
      exact ih acc (fun v hv => hl v (by simp [hv]))
  exact this fctx.volumeInfo _ h

theorem execute_no_eligible (fctx : finalizerContext)
    (view : VolumeInfo → String → Nat → ClusterView) (fuel : Nat)
    (h : ∀ v ∈ fctx.volumeInfo, ¬ startsWorker fctx v) :
    execute fctx view fuel = (Result.empty, Result.empty) := by
  unfold execute
  rw [pool_all_skip fctx view fuel h]
  simp [Result.merge, Result.empty]

/-- C7 counterexample environment: a restore that entered finalization in
phase `FinalizingPartiallyFailed` with zero volumes. -/
def envFPFzero : ReconcileEnv := { envBase with getRestore := .ok restoreFPF }

/-- C7 counterexample: with zero eligible volumes no result write happens,
but the final phase is `PartiallyFailed`, not `Completed`, because the
restore entered in phase `FinalizingPartiallyFailed` — refuting the
claim's unconditional "final phase is Completed". -/
theorem C7_zero_volumes_counterexample :
    ReconcileEnv.volumeInfos envFPFzero = .ok []
    ∧ (Reconcile envFPFzero).resultsWrite = none
    ∧ (Reconcile envFPFzero).patchedRestore = some
        { restoreFPF with status := { restoreFPF.status with
            phase := .partiallyFailed, completionTimestamp := some 1000 } }
    ∧ RestorePhase.partiallyFailed ≠ RestorePhase.completed :=
  ⟨rfl, rfl, rfl, by decide⟩

/-- C7 (amended): a result write happens exactly when the pass's warning
count plus error count is non-zero, and the written payload is the
read-merge-write of the new `Result`s into the previously stored ones,
keyed "warnings" and "errors"; with zero eligible volumes no write is
performed and the final phase is `Completed` when the restore entered in
phase `Finalizing` (`PartiallyFailed` when it entered
`FinalizingPartiallyFailed`). -/
theorem C7_result_write
    (env : ReconcileEnv) (original : Restore) (vs : List VolumeInfo)
    (rrl : List (String × List String)) (origRes : List (String × Result))
    (hget : env.getRestore = .ok original)
    (hphase : original.status.phase = .finalizing ∨
      original.status.phase = .finalizingPartiallyFailed)
    (hinfo : env.backupInfo = .ok ())
    (hstore : env.backupStore = .ok ())
    (hvol : env.volumeInfos = .ok vs)
    (hrrl : env.restoredResourceList = .ok rrl)
    (horig : env.originResults = .ok origRes)
    (hput : env.putResultsErr = none) :
    ((Reconcile env).resultsWrite =
      (if resultCount (execute ⟨original, vs,
            getRestoredPVCFromRestoredResourceList rrl⟩ env.view env.pollFuel).1
          + resultCount (execute ⟨original, vs,
            getRestoredPVCFromRestoredResourceList rrl⟩ env.view env.pollFuel).2
          ≠ 0
       then some (updateResults origRes
          (execute ⟨original, vs, getRestoredPVCFromRestoredResourceList rrl⟩
            env.view env.pollFuel).1
          (execute ⟨original, vs, getRestoredPVCFromRestoredResourceList rrl⟩
            env.view env.pollFuel).2)
       else none))
    ∧ ((∀ v ∈ vs, ¬ startsWorker
          ⟨original, vs, getRestoredPVCFromRestoredResourceList rrl⟩ v) →
        (Reconcile env).resultsWrite = none
        ∧ ∃ r', (Reconcile env).patchedRestore = some r'
            ∧ r'.status.phase =
                (if original.status.phase = .finalizingPartiallyFailed
                 then RestorePhase.partiallyFailed else .completed)) := by
  constructor
  · rw [Reconcile_finalize_eq env original vs rrl origRes hget hphase hinfo
      hstore hvol hrrl horig hput]
    simp only [applyFinish_spec]
    by_cases hc : resultCount (execute ⟨original, vs,
        getRestoredPVCFromRestoredResourceList rrl⟩ env.view env.pollFuel).1 > 0
      ∨ resultCount (execute ⟨original, vs,
        getRestoredPVCFromRestoredResourceList rrl⟩ env.view env.pollFuel).2 > 0
    · have hc' : resultCount (execute ⟨original, vs,
          getRestoredPVCFromRestoredResourceList rrl⟩ env.view env.pollFuel).1
          + resultCount (execute ⟨original, vs,
            getRestoredPVCFromRestoredResourceList rrl⟩
              env.view env.pollFuel).2 ≠ 0 := by omega
      simp [hc, hc']
    · have hc' : ¬ (resultCount (execute ⟨original, vs,
          getRestoredPVCFromRestoredResourceList rrl⟩ env.view env.pollFuel).1
          + resultCount (execute ⟨original, vs,
            getRestoredPVCFromRestoredResourceList rrl⟩
              env.view env.pollFuel).2 ≠ 0) := by omega
      simp [hc, hc']
  · intro hall
    have hexec : execute ⟨original, vs, getRestoredPVCFromRestoredResourceList
        rrl⟩ env.view env.pollFuel = (Result.empty, Result.empty) :=
      execute_no_eligible _ env.view env.pollFuel hall
    rw [Reconcile_finalize_eq env original vs rrl origRes hget hphase hinfo
      hstore hvol hrrl horig hput]
    simp only [hexec, applyFinish_spec, finishProcessing_fst]
    constructor
    · simp [resultCount, Result.empty, nsCount]
    · refine ⟨_, rfl, ?_⟩
      rcases hphase with h | h <;>
        simp [reconciledRestore, Result.isEmpty, Result.empty, resultCount,
          nsCount, h]

theorem C7_result_write_witness :
    ((Reconcile envBase).resultsWrite =
      (if resultCount (execute ⟨restoreFin, [],
            getRestoredPVCFromRestoredResourceList []⟩
              envBase.view envBase.pollFuel).1
          + resultCount (execute ⟨restoreFin, [],
            getRestoredPVCFromRestoredResourceList []⟩
              envBase.view envBase.pollFuel).2
          ≠ 0
       then some (updateResults []
          (execute ⟨restoreFin, [], getRestoredPVCFromRestoredResourceList []⟩
            envBase.view envBase.pollFuel).1
          (execute ⟨restoreFin, [], getRestoredPVCFromRestoredResourceList []⟩
            envBase.view envBase.pollFuel).2)
       else none))
    ∧ ((∀ v ∈ ([] : List VolumeInfo), ¬ startsWorker
          ⟨restoreFin, [], getRestoredPVCFromRestoredResourceList []⟩ v) →
        (Reconcile envBase).resultsWrite = none
        ∧ ∃ r', (Reconcile envBase).patchedRestore = some r'
            ∧ r'.status.phase =
                (if restoreFin.status.phase = .finalizingPartiallyFailed
                 then RestorePhase.partiallyFailed else .completed)) :=
  C7_result_write envBase restoreFin [] [] [] rfl (Or.inl rfl) rfl rfl rfl rfl
    rfl rfl

/-! ### C10: only errors are ever produced -/

theorem execute_fst (fctx : finalizerContext)
    (view : VolumeInfo → String → Nat → ClusterView) (fuel : Nat) :
    (execute fctx view fuel).1 = Result.empty := rfl

theorem resultCount_empty : resultCount Result.empty = 0 := rfl

/-- C10: the finalization task executor always returns an empty warnings
`Result`; consequently no reconcile call ever patches a restore with a
warnings count different from the one it read, and on the finalization
path a result write can only be caused by a non-empty errors `Result`. -/
theorem C10_no_warnings :
    (∀ (fctx : finalizerContext)
        (view : VolumeInfo → String → Nat → ClusterView) (fuel : Nat),
      (execute fctx view fuel).1 = Result.empty)
    ∧ (∀ (env : ReconcileEnv) (original r' : Restore),
        env.getRestore = .ok original →
        (Reconcile env).patchedRestore = some r' →
        r'.status.warnings = original.status.warnings)
    ∧ (∀ (env : ReconcileEnv) (original : Restore) (vs : List VolumeInfo)
        (rrl : List (String × List String)) (origRes : List (String × Result)),
        env.getRestore = .ok original →
        (original.status.phase = .finalizing ∨
          original.status.phase = .finalizingPartiallyFailed) →
        env.backupInfo = .ok () → env.backupStore = .ok () →
        env.volumeInfos = .ok vs → env.restoredResourceList = .ok rrl →
        env.originResults = .ok origRes → env.putResultsErr = none →
        (Reconcile env).resultsWrite ≠ none →
        resultCount (execute ⟨original, vs,
          getRestoredPVCFromRestoredResourceList rrl⟩
            env.view env.pollFuel).2 ≠ 0) := by
  refine ⟨fun _ _ _ => rfl, ?_, ?_⟩
  · intro env original r' hget hpat
    simp only [Reconcile, hget] at hpat
    cases hph : original.status.phase <;> simp only [hph] at hpat <;>
      try simp [ReconcileOutcome.noop] at hpat
    all_goals {
      cases hbi : env.backupInfo with
      | notFound =>
        simp only [hbi, applyFinish_spec, finishProcessing_fst,
          Option.some.injEq] at hpat
        subst hpat
        rfl
      | err m => simp [hbi, ReconcileOutcome.noop] at hpat
      | ok u =>
        cases u
        simp only [hbi, reconcileCore] at hpat
        cases hbs : env.backupStore with
        | error m => simp [hbs, ReconcileOutcome.noop] at hpat
        | ok u2 =>
          cases u2
          simp only [hbs] at hpat
          cases hvs : env.volumeInfos with
          | error m => simp [hvs, ReconcileOutcome.noop] at hpat
          | ok vs =>
            simp only [hvs] at hpat
            cases hrl : env.restoredResourceList with
            | error m => simp [hrl, ReconcileOutcome.noop] at hpat
            | ok rrl =>
              simp only [hrl] at hpat
              split at hpat
              · cases hor : env.originResults with
                | error m => simp [hor, ReconcileOutcome.noop] at hpat
                | ok origRes =>
                  simp only [hor] at hpat
                  cases hpe : env.putResultsErr with
                  | some m => simp [hpe, ReconcileOutcome.noop] at hpat
                  | none =>
                    simp only [hpe, applyFinish_spec, finishProcessing_fst,
                      Option.some.injEq] at hpat
                    subst hpat
                    simp [reconciledRestore, execute_fst, resultCount_empty]
                    split <;> rfl
              · simp only [applyFinish_spec, finishProcessing_fst,
                  Option.some.injEq] at hpat
                subst hpat
                simp [reconciledRestore, execute_fst, resultCount_empty]
                split <;> rfl }
  · intro env original vs rrl origRes hget hphase hinfo hstore hvol hrrl horig
      hput hw
    rw [Reconcile_finalize_eq env original vs rrl origRes hget hphase hinfo
      hstore hvol hrrl horig hput] at hw
    simp only [applyFinish_spec] at hw
    have h1 : resultCount (execute ⟨original, vs,
        getRestoredPVCFromRestoredResourceList rrl⟩
          env.view env.pollFuel).1 = 0 := by
      rw [execute_fst]
      exact resultCount_empty
    by_cases hc : resultCount (execute ⟨original, vs,
        getRestoredPVCFromRestoredResourceList rrl⟩ env.view env.pollFuel).1 > 0
      ∨ resultCount (execute ⟨original, vs,
        getRestoredPVCFromRestoredResourceList rrl⟩ env.view env.pollFuel).2 > 0
    · rcases hc with hc | hc <;> omega
    · simp [hc] at hw

theorem C10_no_warnings_witness :
    (execute fctxW viewW 61).1 = Result.empty
    ∧ ∃ r', (Reconcile envBase).patchedRestore = some r'
        ∧ r'.status.warnings = restoreFin.status.warnings :=
  ⟨C10_no_warnings.1 fctxW viewW 61,
   ⟨_, rfl, C10_no_warnings.2.1 envBase restoreFin _ rfl rfl⟩⟩

end VeleroFinalizer
